import Mathlib

/-!
Shallow embedding of the job scheduling engine of `nest-schedule`
(`src/lib/scheduler.ts`), together with the parts of its data model needed to
settle the specification's claims.

Modelling conventions:
* The static `Scheduler.jobs : Map<string, IJob>` is an association list of
  `(key, IJob)` pairs; `Map.get`/`set`/`delete` become `jobsLookup`,
  append, and `eraseKey`.
* Registrations with the Trigger Source (`schedule.scheduleJob`,
  `setInterval`, `setTimeout`) are recorded as `HandlerEntry` values carrying
  a fresh numeric handle id, the job key, which fire closure was installed,
  and the `configs` object captured by that closure.  Cancelling a handle
  (`instance.cancel()`, `clearInterval`, `clearTimeout`) removes the entry;
  the Trigger Source delivers a firing only to a present handle
  (`deliverFire`).
* Each fire closure is split at its `await` point: the synchronous prefix
  (presence/waiting check, `status = RUNNING`, construction of the Executor)
  is `…FireStart`, and the continuation after `executor.execute` resolves
  (`status = READY`, conditional `cancelJob`) is `fireEnd` /
  `timeoutFireEnd`.  The Executor's boolean result (`needStop`) is a
  parameter of the continuation; the Executor's internals (retry, locking)
  are not needed by the claims settled here.
* JavaScript `undefined` on an optional field is `Option.none`; JS
  truthiness of an optional boolean is `truthy`.  A thrown
  `JobRepeatException` is `Except.error`; a `TypeError` raised by a
  non-null assertion `job!` on a missing entry is the `fault` flag of
  `FireResult`.
-/

namespace NestSchedule

/-- Job status constants `READY` / `RUNNING` (src/lib/constants.ts, whose
body is not in the sources; only the two names are used by scheduler.ts). -/
inductive JobStatus where
  | READY
  | RUNNING
  deriving DecidableEq, Repr

/-- The `type` field of an `IJob`: `'cron' | 'interval' | 'timeout'`. -/
inductive JobType where
  | cron
  | interval
  | timeout
  deriving DecidableEq, Repr

/-- Per-job configuration (`IJobConfig` / `ICronJobConfig` merged into one
record; every field is optional exactly as in the TypeScript interfaces).
`startTime`/`endTime` (dates) are modelled as integers. -/
structure IJobConfig where
  enable : Option Bool
  maxRetry : Option Int
  retryInterval : Option Nat
  waiting : Option Bool
  immediate : Option Bool
  startTime : Option Int
  endTime : Option Int
  cron : Option String
  interval : Option Nat
  timeout : Option Nat
  deriving DecidableEq, Repr

/-- The empty config object `{}` (every optional field absent). -/
def emptyCfg : IJobConfig :=
  ⟨none, none, none, none, none, none, none, none, none, none⟩

/-- Modelled from the spec: `src/lib/defaults.ts` is not among the sources;
the spec's configuration table gives the default values
(enable `true`, maxRetry `-1`, retryInterval `5000`, waiting `false`,
immediate `false`, startTime/endTime unset). -/
def defaults : IJobConfig :=
  { emptyCfg with
      enable := some true
      maxRetry := some (-1)
      retryInterval := some 5000
      waiting := some false
      immediate := some false }

/-- JS truthiness of an optional boolean field: `undefined` and `false`
are falsy, `true` is truthy. -/
def truthy (o : Option Bool) : Bool :=
  o.getD false

/-- Field override: the second object's own property wins
(one field of `Object.assign`). -/
def ov {α : Type} (a b : Option α) : Option α :=
  match b with
  | some x => some x
  | none => a

/-- `Object.assign({}, a, b)` on config objects: later overrides earlier,
field by field. -/
def mergeCfg (a b : IJobConfig) : IJobConfig :=
  { enable := ov a.enable b.enable
    maxRetry := ov a.maxRetry b.maxRetry
    retryInterval := ov a.retryInterval b.retryInterval
    waiting := ov a.waiting b.waiting
    immediate := ov a.immediate b.immediate
    startTime := ov a.startTime b.startTime
    endTime := ov a.endTime b.endTime
    cron := ov a.cron b.cron
    interval := ov a.interval b.interval
    timeout := ov a.timeout b.timeout }

/-- The object handed to `schedule.scheduleJob` by `scheduleCronJob`:
either the spread copy of a structured `ICronObject`, or
`{ start, end, rule }` built from a bare rule string.  `end` is a Lean
keyword, hence the field name `endB`. -/
structure CronJobSpec where
  start : Option Int
  endB : Option Int
  rule : Option String
  deriving DecidableEq, Repr

/-- The `cron` argument of `scheduleCronJob`: a bare rule string or a
structured `ICronObject` (modelled by its start/end/rule projection,
which is all `scheduleCronJob` passes through). -/
inductive CronArg where
  | str (rule : String)
  | obj (o : CronJobSpec)
  deriving DecidableEq, Repr

/-- The `cronJob` object computed by `scheduleCronJob` (lines 94–104):
a structured object is spread-copied unchanged; a bare rule string yields
`start`/`end` read from the RAW `config` parameter (`null` when the
parameter is omitted) — not from the merged `configs`. -/
def cronJobOf (cron : CronArg) (config : Option IJobConfig) : CronJobSpec :=
  match cron with
  | .obj o => o
  | .str r =>
      { start := match config with
          | none => none
          | some c => c.startTime
        endB := match config with
          | none => none
          | some c => c.endTime
        rule := some r }

/-- Which fire closure a Trigger Source registration runs
(the four `async` closures of scheduler.ts). -/
inductive FireKind where
  | cron
  | interval
  | timeout
  | recurrence
  deriving DecidableEq, Repr

/-- A registry entry `IJob`: job type, the raw config stored by `addJob`,
the key, and the Trigger Source handles (`timer` for interval/timeout,
`inst` for the node-schedule `instance` of cron/recurrence jobs —
`instance` is a Lean keyword). -/
structure IJob where
  type : JobType
  config : Option IJobConfig
  key : String
  timer : Option Nat
  inst : Option Nat
  status : JobStatus
  deriving DecidableEq, Repr

/-- A live Trigger Source registration: handle id, the key and closure kind
installed, and the `configs` object captured by the closure. -/
structure HandlerEntry where
  id : Nat
  key : String
  fireKind : FireKind
  configs : IJobConfig
  cronSpec : Option CronJobSpec
  deriving DecidableEq, Repr

/-- The scheduler's state: the `jobs` map, the live Trigger Source
registrations, and a counter supplying fresh handle ids. -/
structure SchedState where
  jobs : List (String × IJob)
  handlers : List HandlerEntry
  nextId : Nat
  deriving DecidableEq, Repr

/-- The initial state: empty registry, no registrations. -/
def init : SchedState :=
  ⟨[], [], 0⟩

/-- `Map.get` on the jobs map. -/
def jobsLookup : List (String × IJob) → String → Option IJob
  | [], _ => none
  | (k, j) :: rest, key => if k = key then some j else jobsLookup rest key

/-- `this.jobs.get(key)` on the state. -/
def lookupJob (s : SchedState) (key : String) : Option IJob :=
  jobsLookup s.jobs key

/-- `Map.delete` on the jobs map. -/
def eraseKey : List (String × IJob) → String → List (String × IJob)
  | [], _ => []
  | (k, j) :: rest, key =>
      if k = key then eraseKey rest key else (k, j) :: eraseKey rest key

/-- Mutation `job.status = st` of the entry stored under `key`. -/
def updateStatus : List (String × IJob) → String → JobStatus → List (String × IJob)
  | [], _, _ => []
  | (k, j) :: rest, key, st =>
      if k = key then (k, { j with status := st }) :: updateStatus rest key st
      else (k, j) :: updateStatus rest key st

/-- The Trigger Source's view of a handle id. -/
def findHandler : List HandlerEntry → Nat → Option HandlerEntry
  | [], _ => none
  | h :: rest, i => if h.id = i then some h else findHandler rest i

/-- Releasing a handle (`instance.cancel()` / `clearInterval` /
`clearTimeout`): the registration with that id is gone. -/
def removeHandlerId : List HandlerEntry → Nat → List HandlerEntry
  | [], _ => []
  | h :: rest, i =>
      if h.id = i then removeHandlerId rest i else h :: removeHandlerId rest i

/-- Release the handle designated by an optional handle field. -/
def optRemove (hs : List HandlerEntry) (o : Option Nat) : List HandlerEntry :=
  match o with
  | none => hs
  | some i => removeHandlerId hs i

/-- `Scheduler.assertJobNotExist` (lines 291–295): throws
`JobRepeatException` when the key is already registered. -/
def assertJobNotExist (s : SchedState) (key : String) : Except String Unit :=
  if (lookupJob s key).isSome then
    .error ("The job " ++ key ++ " is exists.")
  else
    .ok ()

/-- `Scheduler.addJob` (lines 251–265): store a fresh `IJob` with
status `READY`. -/
def addJob (s : SchedState) (key : String) (type : JobType)
    (config : Option IJobConfig) (timer inst : Option Nat) : SchedState :=
  { s with jobs := s.jobs ++ [(key, ⟨type, config, key, timer, inst, .READY⟩)] }

/-- `Scheduler.cancelJob` (lines 55–74): no-op on a missing key; otherwise
release the handle selected by the job's type (`cron`: cancel the
node-schedule instance; `interval`/`timeout`: clear the timer) and delete
the entry. -/
def cancelJob (s : SchedState) (key : String) : SchedState :=
  match lookupJob s key with
  | none => s
  | some job =>
      let hs :=
        match job.type with
        | .cron => optRemove s.handlers job.inst
        | .interval => optRemove s.handlers job.timer
        | .timeout => optRemove s.handlers job.timer
      ⟨eraseKey s.jobs key, hs, s.nextId⟩

/-- The `configs` object of `scheduleCronJob` / `scheduleTimeoutJob` /
`scheduleRecurrenceJob`: `Object.assign({}, defaults, config)`. -/
def mergedConfigs (config : Option IJobConfig) : IJobConfig :=
  mergeCfg defaults (config.getD emptyCfg)

/-- The `configs` object of `scheduleIntervalJob` (line 141), exactly as
written in the source: `Object.assign({}, config, config)` — the defaults
object is NOT part of the merge. -/
def intervalConfigs (config : Option IJobConfig) : IJobConfig :=
  mergeCfg (config.getD emptyCfg) (config.getD emptyCfg)

/-- `Scheduler.scheduleCronJob` (lines 82–130).  The `immediate` follow-up
run is an asynchronous, un-awaited call of `runJobImmediately`; its
execution is a separate event (`runJobImmediatelyStart` below), so the
state returned here is the state at the end of the synchronous body. -/
def scheduleCronJob (s : SchedState) (key : String) (cron : CronArg)
    (config : Option IJobConfig) : Except String SchedState :=
  match assertJobNotExist s key with
  | .error e => .error e
  | .ok _ =>
      let configs := mergedConfigs config
      let cronJob := cronJobOf cron config
      let id := s.nextId
      let s1 : SchedState :=
        ⟨s.jobs, s.handlers ++ [⟨id, key, .cron, configs, some cronJob⟩], s.nextId + 1⟩
      .ok (addJob s1 key .cron config none (some id))

/-- `Scheduler.scheduleIntervalJob` (lines 132–166).  Note the merge on
line 141 (`intervalConfigs`). -/
def scheduleIntervalJob (s : SchedState) (key : String) (interval : Nat)
    (config : Option IJobConfig) : Except String SchedState :=
  match assertJobNotExist s key with
  | .error e => .error e
  | .ok _ =>
      let configs := intervalConfigs config
      let id := s.nextId
      let s1 : SchedState :=
        ⟨s.jobs, s.handlers ++ [⟨id, key, .interval, configs, none⟩], s.nextId + 1⟩
      .ok (addJob s1 key .interval config (some id) none)

/-- `Scheduler.scheduleTimeoutJob` (lines 168–201). -/
def scheduleTimeoutJob (s : SchedState) (key : String) (timeout : Nat)
    (config : Option IJobConfig) : Except String SchedState :=
  match assertJobNotExist s key with
  | .error e => .error e
  | .ok _ =>
      let configs := mergedConfigs config
      let id := s.nextId
      let s1 : SchedState :=
        ⟨s.jobs, s.handlers ++ [⟨id, key, .timeout, configs, none⟩], s.nextId + 1⟩
      .ok (addJob s1 key .timeout config (some id) none)

/-- `Scheduler.scheduleRecurrenceJob` (lines 203–249): registers a
node-schedule recurrence rule; the entry is stored with type `'cron'`.
The recurrence rule itself is opaque to the registry and is not modelled
beyond the registration. -/
def scheduleRecurrenceJob (s : SchedState) (key : String)
    (config : Option IJobConfig) : Except String SchedState :=
  match assertJobNotExist s key with
  | .error e => .error e
  | .ok _ =>
      let configs := mergedConfigs config
      let id := s.nextId
      let s1 : SchedState :=
        ⟨s.jobs, s.handlers ++ [⟨id, key, .recurrence, configs, none⟩], s.nextId + 1⟩
      .ok (addJob s1 key .cron config none (some id))

/-- The queued registration entry handed to `Scheduler.queueJob` by the
decorator layer (`IJob` of the declaration surface): key, the `type`
string, and the raw per-job config. -/
structure QueuedJob where
  key : String
  type : String
  config : Option IJobConfig
  deriving DecidableEq, Repr

/-- `Scheduler.queueJob` (lines 19–53): merge
`Object.assign({}, defaults, job.config)`, and only when `config.enable`
is truthy dispatch on the type string to the matching schedule operation
(cron receives `config.cron!` as a bare rule string and the merged config;
interval/timeout receive the raw config's `interval!`/`timeout!` value and
the merged config).  With `enable` falsy nothing is registered. -/
def queueJob (s : SchedState) (j : QueuedJob) : Except String SchedState :=
  let config := mergedConfigs j.config
  if truthy config.enable then
    if j.type = "cron" then
      scheduleCronJob s j.key (.str (config.cron.getD "")) (some config)
    else if j.type = "interval" then
      scheduleIntervalJob s j.key ((j.config.getD emptyCfg).interval.getD 0) (some config)
    else if j.type = "timeout" then
      scheduleTimeoutJob s j.key ((j.config.getD emptyCfg).timeout.getD 0) (some config)
    else
      .ok s
  else
    .ok s

/-- Outcome of running the synchronous prefix of a fire closure:
the state after it, whether an Executor run was started (the closure
reached `new Executor(configs)` / `executor.execute`), and whether the
closure faulted (a `TypeError` from dereferencing `job!` on a missing
entry). -/
structure FireResult where
  state : SchedState
  started : Bool
  fault : Bool
  deriving DecidableEq, Repr

/-- Synchronous prefix of the cron fire closure (lines 106–116): the entry
is dereferenced with the non-null assertion `job!` and no presence check,
so a firing delivered while the key is absent faults; otherwise skip when
`waiting` is truthy and status is not `READY`, else set `RUNNING` and
start the Executor. -/
def cronFireStart (s : SchedState) (key : String) (configs : IJobConfig) :
    FireResult :=
  match lookupJob s key with
  | none => ⟨s, false, true⟩
  | some job =>
      if truthy configs.waiting ∧ job.status ≠ .READY then
        ⟨s, false, false⟩
      else
        ⟨{ s with jobs := updateStatus s.jobs key .RUNNING }, true, false⟩

/-- Synchronous prefix of the recurrence fire closure (lines 225–235):
textually the same body as the cron closure, including the unguarded
`job!` dereference. -/
def recurrenceFireStart (s : SchedState) (key : String) (configs : IJobConfig) :
    FireResult :=
  match lookupJob s key with
  | none => ⟨s, false, true⟩
  | some job =>
      if truthy configs.waiting ∧ job.status ≠ .READY then
        ⟨s, false, false⟩
      else
        ⟨{ s with jobs := updateStatus s.jobs key .RUNNING }, true, false⟩

/-- Synchronous prefix of the interval fire closure (lines 142–152):
`if (!job || (configs.waiting && job.status !== READY)) return;` — a
missing entry returns silently. -/
def intervalFireStart (s : SchedState) (key : String) (configs : IJobConfig) :
    FireResult :=
  match lookupJob s key with
  | none => ⟨s, false, false⟩
  | some job =>
      if truthy configs.waiting ∧ job.status ≠ .READY then
        ⟨s, false, false⟩
      else
        ⟨{ s with jobs := updateStatus s.jobs key .RUNNING }, true, false⟩

/-- Synchronous prefix of the timeout fire closure (lines 178–189):
same guard as the interval closure. -/
def timeoutFireStart (s : SchedState) (key : String) (configs : IJobConfig) :
    FireResult :=
  match lookupJob s key with
  | none => ⟨s, false, false⟩
  | some job =>
      if truthy configs.waiting ∧ job.status ≠ .READY then
        ⟨s, false, false⟩
      else
        ⟨{ s with jobs := updateStatus s.jobs key .RUNNING }, true, false⟩

/-- Body of `runJobImmediately` (lines 267–289): identical to the interval
closure's prefix (presence check, waiting guard, `RUNNING`). -/
def runJobImmediatelyStart (s : SchedState) (key : String)
    (configs : IJobConfig) : FireResult :=
  intervalFireStart s key configs

/-- Continuation of the cron / recurrence / interval closures after
`executor.execute` resolves with `needStop` (lines 118–122, 154–158,
237–241): set the status back to `READY` and cancel the job when the
Executor signalled stop. -/
def fireEnd (s : SchedState) (key : String) (needStop : Bool) : SchedState :=
  let s1 : SchedState := { s with jobs := updateStatus s.jobs key .READY }
  if needStop then cancelJob s1 key else s1

/-- Continuation of the timeout closure (lines 191–193): the Executor's
result is discarded and `cancelJob` runs unconditionally. -/
def timeoutFireEnd (s : SchedState) (key : String) : SchedState :=
  cancelJob { s with jobs := updateStatus s.jobs key .READY } key

/-- The Trigger Source delivers a firing of handle `id`: nothing happens if
the handle was cancelled; otherwise the installed closure's prefix runs.
A timeout handle (`setTimeout`) is one-shot: delivery spends it. -/
def deliverFire (s : SchedState) (id : Nat) : FireResult :=
  match findHandler s.handlers id with
  | none => ⟨s, false, false⟩
  | some h =>
      match h.fireKind with
      | .cron => cronFireStart s h.key h.configs
      | .recurrence => recurrenceFireStart s h.key h.configs
      | .interval => intervalFireStart s h.key h.configs
      | .timeout =>
          timeoutFireStart ⟨s.jobs, removeHandlerId s.handlers id, s.nextId⟩
            h.key h.configs

/-- Extract the state of a successful registration (schedule operations in
the concrete scenarios below never fail). -/
def exceptD (e : Except String SchedState) : SchedState :=
  match e with
  | .ok s => s
  | .error _ => init

end NestSchedule

namespace NestSchedule

/-! ### Registry and handler lemmas -/

theorem jobsLookup_eraseKey_self (l : List (String × IJob)) (key : String) :
    jobsLookup (eraseKey l key) key = none := by
  induction l with
  | nil => rfl
  | cons p rest ih =>
      obtain ⟨k, j⟩ := p
      by_cases h : k = key
      · simp [eraseKey, h, ih]
      · simp [eraseKey, jobsLookup, h, ih]

theorem jobsLookup_eraseKey_ne (l : List (String × IJob)) (key k2 : String)
    (h : k2 ≠ key) : jobsLookup (eraseKey l key) k2 = jobsLookup l k2 := by
  induction l with
  | nil => rfl
  | cons p rest ih =>
      obtain ⟨k, j⟩ := p
      by_cases hk : k = key
      · have hk2 : ¬key = k2 := fun hkk => h hkk.symm
        simp [eraseKey, jobsLookup, hk, hk2, ih]
      · by_cases hk2 : k = k2
        · simp [eraseKey, jobsLookup, hk, hk2, h]
        · simp [eraseKey, jobsLookup, hk, hk2, ih]

theorem jobsLookup_updateStatus (l : List (String × IJob)) (key : String)
    (st : JobStatus) :
    jobsLookup (updateStatus l key st) key
      = (jobsLookup l key).map (fun j => { j with status := st }) := by
  induction l with
  | nil => rfl
  | cons p rest ih =>
      obtain ⟨k, j⟩ := p
      by_cases h : k = key
      · simp [updateStatus, jobsLookup, h]
      · simp [updateStatus, jobsLookup, h, ih]

theorem findHandler_removeHandlerId_self (hs : List HandlerEntry) (i : Nat) :
    findHandler (removeHandlerId hs i) i = none := by
  induction hs with
  | nil => rfl
  | cons h rest ih =>
      by_cases hh : h.id = i
      · simp [removeHandlerId, hh, ih]
      · simp [removeHandlerId, findHandler, hh, ih]

theorem findHandler_removeHandlerId_ne (hs : List HandlerEntry) (i j : Nat)
    (h : j ≠ i) : findHandler (removeHandlerId hs i) j = findHandler hs j := by
  induction hs with
  | nil => rfl
  | cons e rest ih =>
      by_cases he : e.id = i
      · have hij : ¬i = j := fun hx => h hx.symm
        simp [removeHandlerId, findHandler, he, hij, ih]
      · by_cases hej : e.id = j
        · simp [removeHandlerId, findHandler, he, hej, h]
        · simp [removeHandlerId, findHandler, he, hej, ih]

theorem timeoutFireStart_handlers (s : SchedState) (key : String)
    (configs : IJobConfig) :
    (timeoutFireStart s key configs).state.handlers = s.handlers := by
  unfold timeoutFireStart
  cases lookupJob s key with
  | none => rfl
  | some job =>
      by_cases h : truthy configs.waiting ∧ job.status ≠ JobStatus.READY
      · simp [h]
      · simp [h]

theorem timeoutFireStart_nextId (s : SchedState) (key : String)
    (configs : IJobConfig) :
    (timeoutFireStart s key configs).state.nextId = s.nextId := by
  unfold timeoutFireStart
  cases lookupJob s key with
  | none => rfl
  | some job =>
      by_cases h : truthy configs.waiting ∧ job.status ≠ JobStatus.READY
      · simp [h]
      · simp [h]

end NestSchedule

namespace NestSchedule

/-! ### Claim C1 -/

/-- C1: for every key already present in the registry, each of the four
schedule operations (`scheduleCronJob`, `scheduleIntervalJob`,
`scheduleTimeoutJob`, `scheduleRecurrenceJob`) raises `JobRepeatException`
synchronously on the duplicate call; `assertJobNotExist` runs before any
mutation, so the first registration's entry is left in place unmodified
(the operation returns only the error, with no state change). -/
theorem c1_duplicate_key_errors (s : SchedState) (key : String)
    (cron : CronArg) (iv tm : Nat) (cfgA cfgB cfgC cfgD : Option IJobConfig)
    (h : (lookupJob s key).isSome = true) :
    scheduleCronJob s key cron cfgA = .error ("The job " ++ key ++ " is exists.")
    ∧ scheduleIntervalJob s key iv cfgB = .error ("The job " ++ key ++ " is exists.")
    ∧ scheduleTimeoutJob s key tm cfgC = .error ("The job " ++ key ++ " is exists.")
    ∧ scheduleRecurrenceJob s key cfgD = .error ("The job " ++ key ++ " is exists.") := by
  refine ⟨?_, ?_, ?_, ?_⟩ <;>
    simp [scheduleCronJob, scheduleIntervalJob, scheduleTimeoutJob,
      scheduleRecurrenceJob, assertJobNotExist, h]

/-- State holding one registered job under key `"k"`, for the C1 witness. -/
def c1state : SchedState :=
  exceptD (scheduleIntervalJob init "k" 1000 none)

/-- C1 witness: the duplicate-key error is observed on a concrete state. -/
theorem c1_duplicate_key_errors_witness :
    (lookupJob c1state "k").isSome = true
    ∧ (scheduleCronJob c1state "k" (.str "0 0 2 * *") none
          = .error ("The job " ++ "k" ++ " is exists.")
        ∧ scheduleIntervalJob c1state "k" 1000 none
          = .error ("The job " ++ "k" ++ " is exists.")
        ∧ scheduleTimeoutJob c1state "k" 5 none
          = .error ("The job " ++ "k" ++ " is exists.")
        ∧ scheduleRecurrenceJob c1state "k" none
          = .error ("The job " ++ "k" ++ " is exists.")) :=
  ⟨by decide,
    c1_duplicate_key_errors c1state "k" (.str "0 0 2 * *") 1000 5
      none none none none (by decide)⟩

/-! ### Claim C2 -/

/-- State produced by a direct `scheduleIntervalJob` call with the config
parameter omitted, for claim C2. -/
def c2state : SchedState :=
  exceptD (scheduleIntervalJob init "k" 1000 none)

/-- C2 (code bug, evaluated at the failing input): `scheduleIntervalJob`
computes `Object.assign({}, config, config)` (line 141), so with the config
parameter omitted the configuration captured by the interval fire closure
has `retryInterval`, `maxRetry` and `waiting` all unset instead of the
defaults `5000`, `-1`, `false` that the documentation promises; the merge
used by the other schedule operations (`mergedConfigs`) does apply them. -/
theorem c2_interval_defaults_missing :
    (intervalConfigs none).retryInterval = none
    ∧ (intervalConfigs none).maxRetry = none
    ∧ (intervalConfigs none).waiting = none
    ∧ (c2state.handlers.map fun h => h.configs) = [emptyCfg]
    ∧ defaults.retryInterval = some 5000
    ∧ defaults.maxRetry = some (-1)
    ∧ defaults.waiting = some false
    ∧ (mergedConfigs none).retryInterval = some 5000
    ∧ (mergedConfigs none).maxRetry = some (-1)
    ∧ (mergedConfigs none).waiting = some false := by
  decide

/-! ### Claim C5 -/

/-- C5: for a cron job registered with a bare rule string, the
`start`/`end` bounds of the object handed to the trigger source are read
from the RAW `config` parameter — `null` when the parameter is omitted,
the raw `startTime`/`endTime` fields when it is supplied — never from the
merged/defaulted `configs`; a structured rule object is passed through
unchanged.  The last conjunct shows the registration end to end:
the handler entry stores `cronJobOf cron config` applied to the raw
config. -/
theorem c5_cron_bounds_from_raw_config :
    (∀ rule : String, cronJobOf (.str rule) none = ⟨none, none, some rule⟩)
    ∧ (∀ (rule : String) (c : IJobConfig),
        cronJobOf (.str rule) (some c) = ⟨c.startTime, c.endTime, some rule⟩)
    ∧ (∀ (o : CronJobSpec) (config : Option IJobConfig),
        cronJobOf (.obj o) config = o)
    ∧ (∀ (key rule : String) (config : Option IJobConfig),
        (exceptD (scheduleCronJob init key (.str rule) config)).handlers
          = [⟨0, key, .cron, mergedConfigs config,
              some (cronJobOf (.str rule) config)⟩]) :=
  ⟨fun _ => rfl, fun _ _ => rfl, fun _ _ => rfl, fun _ _ _ => rfl⟩

/-! ### Claim C6 -/

/-- A per-job config with `enable: false` and nothing else. -/
def disabledCfg : IJobConfig :=
  { emptyCfg with enable := some false }

/-- State produced by a direct `scheduleIntervalJob` call with
`enable: false`, for claim C6. -/
def c6intervalState : SchedState :=
  exceptD (scheduleIntervalJob init "k" 1000 (some disabledCfg))

/-- State produced by a direct `scheduleCronJob` call with `enable: false`,
for claim C6. -/
def c6cronState : SchedState :=
  exceptD (scheduleCronJob init "k" (.str "0 0 2 * *") (some disabledCfg))

/-- C6 (code bug, evaluated at the failing input): only `queueJob` checks
`config.enable`; the direct public schedule operations never consult it,
so a job registered directly with `enable: false` is stored, keeps a live
trigger-source registration, and a delivered firing starts an Executor
run. -/
theorem c6_enable_ignored_by_direct_ops :
    queueJob init ⟨"k", "interval", some disabledCfg⟩ = .ok init
    ∧ queueJob init ⟨"k", "cron", some disabledCfg⟩ = .ok init
    ∧ queueJob init ⟨"k", "timeout", some disabledCfg⟩ = .ok init
    ∧ (lookupJob c6intervalState "k").isSome = true
    ∧ (deliverFire c6intervalState 0).started = true
    ∧ (lookupJob c6cronState "k").isSome = true
    ∧ (deliverFire c6cronState 0).started = true :=
  ⟨rfl, rfl, rfl, by decide, by decide, by decide, by decide⟩

/-! ### Claim C10 -/

/-- C10: a firing delivered while the key is absent from the registry (for
example after cancellation) faults in the closures installed by
`scheduleCronJob` and `scheduleRecurrenceJob` (they dereference `job!`
with no presence check), while the closures installed by
`scheduleIntervalJob` and `scheduleTimeoutJob` test for the missing entry
and return silently. -/
theorem c10_missing_key_fire (s : SchedState) (key : String)
    (configs : IJobConfig) (h : lookupJob s key = none) :
    cronFireStart s key configs = ⟨s, false, true⟩
    ∧ recurrenceFireStart s key configs = ⟨s, false, true⟩
    ∧ intervalFireStart s key configs = ⟨s, false, false⟩
    ∧ timeoutFireStart s key configs = ⟨s, false, false⟩ := by
  refine ⟨?_, ?_, ?_, ?_⟩ <;>
    simp [cronFireStart, recurrenceFireStart, intervalFireStart,
      timeoutFireStart, h]

/-- C10 witness: on the empty registry, the cron closure faults and the
interval closure returns silently. -/
theorem c10_missing_key_fire_witness :
    lookupJob init "w" = none
    ∧ (cronFireStart init "w" emptyCfg = ⟨init, false, true⟩
        ∧ recurrenceFireStart init "w" emptyCfg = ⟨init, false, true⟩
        ∧ intervalFireStart init "w" emptyCfg = ⟨init, false, false⟩
        ∧ timeoutFireStart init "w" emptyCfg = ⟨init, false, false⟩) :=
  ⟨rfl, c10_missing_key_fire init "w" emptyCfg rfl⟩

end NestSchedule

namespace NestSchedule

/-! ### Claim C3 -/

/-- State after registering an interval job `"k"` with no per-job config
(so the closure's captured `waiting` is unset, hence falsy). -/
def c3state0 : SchedState :=
  exceptD (scheduleIntervalJob init "k" 1000 none)

/-- First delivered firing of job `"k"`: starts an execution which is
still in flight (no `fireEnd` has happened). -/
def c3fire1 : FireResult :=
  deliverFire c3state0 0

/-- Second delivered firing of job `"k"` while the first execution is
still in flight. -/
def c3fire2 : FireResult :=
  deliverFire c3fire1.state 0

/-- C3 counterexample: with `waiting` unset (the default), a firing
delivered while a previous execution of the same job is still in flight
proceeds and assigns `RUNNING` to a job whose status is already
`RUNNING` — a reachable RUNNING→RUNNING step, contradicting the claim
that no reachable step does so. -/
theorem c3_running_rerun_counterexample :
    (findHandler c3state0.handlers 0).map (fun h => truthy h.configs.waiting)
      = some false
    ∧ c3fire1.started = true
    ∧ (lookupJob c3fire1.state "k").map IJob.status = some .RUNNING
    ∧ c3fire2.started = true
    ∧ (lookupJob c3fire2.state "k").map IJob.status = some .RUNNING := by
  decide

/-- C3 as amended: the READY→RUNNING / RUNNING→READY discipline holds for
a job whose effective `waiting` flag is truthy — under truthy `waiting`
every fire closure starts an execution only from status `READY`, and the
post-execution continuation puts the status back to `READY`; with
`waiting` falsy (the default) an overlapping firing re-assigns `RUNNING`
to an already-RUNNING job, as the counterexample shows. -/
theorem c3_status_machine_amended (s : SchedState) (key : String)
    (configs : IJobConfig) (job : IJob)
    (hlook : lookupJob s key = some job)
    (hwait : truthy configs.waiting = true) :
    ((cronFireStart s key configs).started = true → job.status = .READY)
    ∧ ((recurrenceFireStart s key configs).started = true → job.status = .READY)
    ∧ ((intervalFireStart s key configs).started = true → job.status = .READY)
    ∧ ((timeoutFireStart s key configs).started = true → job.status = .READY)
    ∧ jobsLookup (fireEnd s key false).jobs key
        = some { job with status := .READY } := by
  have hend : jobsLookup (fireEnd s key false).jobs key
      = some { job with status := .READY } := by
    have hl : jobsLookup s.jobs key = some job := hlook
    simp [fireEnd, jobsLookup_updateStatus, hl]
  by_cases hst : job.status = .READY
  · exact ⟨fun _ => hst, fun _ => hst, fun _ => hst, fun _ => hst, hend⟩
  · refine ⟨?_, ?_, ?_, ?_, hend⟩ <;>
      simp [cronFireStart, recurrenceFireStart, intervalFireStart,
        timeoutFireStart, hlook, hwait, hst]

/-- Config with a truthy `waiting` flag, for the C3/C7 witnesses. -/
def waitCfg : IJobConfig :=
  { emptyCfg with waiting := some true }

/-- A READY interval job under key `"w"`, for the C3 witness. -/
def c3readyJob : IJob :=
  ⟨.interval, none, "w", some 0, none, .READY⟩

/-- Registry holding the READY job `"w"`, for the C3 witness. -/
def c3readyState : SchedState :=
  ⟨[("w", c3readyJob)], [⟨0, "w", .interval, waitCfg, none⟩], 1⟩

/-- C3 witness: the amended guarantee applied on a concrete state. -/
theorem c3_status_machine_amended_witness :
    lookupJob c3readyState "w" = some c3readyJob
    ∧ truthy waitCfg.waiting = true
    ∧ ((intervalFireStart c3readyState "w" waitCfg).started = true
        → c3readyJob.status = .READY)
    ∧ jobsLookup (fireEnd c3readyState "w" false).jobs "w"
        = some { c3readyJob with status := .READY } :=
  ⟨by decide, rfl,
    (c3_status_machine_amended c3readyState "w" waitCfg c3readyJob
      (by decide) rfl).2.2.1,
    (c3_status_machine_amended c3readyState "w" waitCfg c3readyJob
      (by decide) rfl).2.2.2.2⟩

/-! ### Claim C7 -/

/-- C7: for a job with truthy `waiting`, a firing delivered while the
job's status is not `READY` is skipped silently by every fire closure
(and by `runJobImmediately`): the returned state is exactly the input
state (no status change), no Executor run is started — so the callback is
not invoked, no retry is counted and no lock acquisition is attempted —
and no fault is raised. -/
theorem c7_waiting_skips_silently (s : SchedState) (key : String)
    (configs : IJobConfig) (job : IJob)
    (hlook : lookupJob s key = some job)
    (hwait : truthy configs.waiting = true)
    (hst : job.status ≠ .READY) :
    cronFireStart s key configs = ⟨s, false, false⟩
    ∧ recurrenceFireStart s key configs = ⟨s, false, false⟩
    ∧ intervalFireStart s key configs = ⟨s, false, false⟩
    ∧ timeoutFireStart s key configs = ⟨s, false, false⟩
    ∧ runJobImmediatelyStart s key configs = ⟨s, false, false⟩ := by
  refine ⟨?_, ?_, ?_, ?_, ?_⟩ <;>
    simp [cronFireStart, recurrenceFireStart, intervalFireStart,
      timeoutFireStart, runJobImmediatelyStart, hlook, hwait, hst]

/-- A RUNNING interval job under key `"w"`, for the C7 witness. -/
def c7runningJob : IJob :=
  ⟨.interval, none, "w", some 0, none, .RUNNING⟩

/-- Registry holding the RUNNING job `"w"`, for the C7 witness. -/
def c7runningState : SchedState :=
  ⟨[("w", c7runningJob)], [⟨0, "w", .interval, waitCfg, none⟩], 1⟩

/-- C7 witness: the silent skip observed on a concrete RUNNING job. -/
theorem c7_waiting_skips_silently_witness :
    lookupJob c7runningState "w" = some c7runningJob
    ∧ truthy waitCfg.waiting = true
    ∧ c7runningJob.status ≠ .READY
    ∧ (cronFireStart c7runningState "w" waitCfg = ⟨c7runningState, false, false⟩
        ∧ recurrenceFireStart c7runningState "w" waitCfg = ⟨c7runningState, false, false⟩
        ∧ intervalFireStart c7runningState "w" waitCfg = ⟨c7runningState, false, false⟩
        ∧ timeoutFireStart c7runningState "w" waitCfg = ⟨c7runningState, false, false⟩
        ∧ runJobImmediatelyStart c7runningState "w" waitCfg
            = ⟨c7runningState, false, false⟩) :=
  ⟨by decide, rfl, by decide,
    c7_waiting_skips_silently c7runningState "w" waitCfg c7runningJob
      (by decide) rfl (by decide)⟩

end NestSchedule

namespace NestSchedule

/-! ### Claim C4 -/

/-- C4: a timeout job fires at most once and never survives its single
run.  First conjunct: after the timeout closure's continuation (which
discards the Executor's result and calls `cancelJob` unconditionally,
whatever the callback outcome, stop signal, or waiting policy for that
run), the key is absent from the registry — for every state.  Second
conjunct: a `setTimeout` handle is one-shot, so once a firing of a
timeout handle has been delivered, delivering the same handle again does
nothing (no closure runs, no state change). -/
theorem c4_timeout_fires_once_then_removed :
    (∀ (s : SchedState) (key : String),
      lookupJob (timeoutFireEnd s key) key = none)
    ∧ (∀ (s : SchedState) (i : Nat) (h : HandlerEntry),
        findHandler s.handlers i = some h → h.fireKind = .timeout →
        deliverFire (deliverFire s i).state i
          = ⟨(deliverFire s i).state, false, false⟩) := by
  constructor
  · intro s key
    have hup : jobsLookup (updateStatus s.jobs key JobStatus.READY) key
        = (jobsLookup s.jobs key).map (fun j => { j with status := JobStatus.READY }) :=
      jobsLookup_updateStatus s.jobs key .READY
    cases hj : jobsLookup s.jobs key with
    | none => simp [timeoutFireEnd, cancelJob, lookupJob, hup, hj]
    | some job =>
        simp [timeoutFireEnd, cancelJob, lookupJob, hup, hj,
          jobsLookup_eraseKey_self]
  · intro s i h hfind hkind
    have h1 : deliverFire s i
        = timeoutFireStart ⟨s.jobs, removeHandlerId s.handlers i, s.nextId⟩
            h.key h.configs := by
      simp [deliverFire, hfind, hkind]
    rw [h1]
    have h3 : (timeoutFireStart ⟨s.jobs, removeHandlerId s.handlers i, s.nextId⟩
        h.key h.configs).state.handlers = removeHandlerId s.handlers i :=
      timeoutFireStart_handlers _ _ _
    simp [deliverFire, h3, findHandler_removeHandlerId_self]

/-- State holding one registered timeout job `"k"`, for the C4 witness. -/
def c4state : SchedState :=
  exceptD (scheduleTimeoutJob init "k" 5 none)

/-- The handler entry registered by `scheduleTimeoutJob` in `c4state`. -/
def c4handler : HandlerEntry :=
  ⟨0, "k", .timeout, mergedConfigs none, none⟩

/-- C4 witness: the removal and the one-shot behaviour on a concrete
timeout job. -/
theorem c4_timeout_fires_once_then_removed_witness :
    findHandler c4state.handlers 0 = some c4handler
    ∧ c4handler.fireKind = .timeout
    ∧ lookupJob (timeoutFireEnd c4state "k") "k" = none
    ∧ deliverFire (deliverFire c4state 0).state 0
        = ⟨(deliverFire c4state 0).state, false, false⟩ :=
  ⟨by decide, rfl,
    c4_timeout_fires_once_then_removed.1 c4state "k",
    c4_timeout_fires_once_then_removed.2 c4state 0 c4handler (by decide) rfl⟩

/-! ### Claim C8 -/

/-- C8: for a cron or interval job whose Executor run signals stop
(`needStop = true`), the continuation cancels the job: the trigger-source
handle held by the job (`timer` for interval, `instance` for cron) is
released, the key is removed from the registry, and a subsequent firing
of that handle is not delivered to any closure — so the callback is never
invoked again. -/
theorem c8_stop_signal_cancels (s : SchedState) (key : String) (job : IJob)
    (i : Nat) (hlook : lookupJob s key = some job)
    (hh : job.type = .interval ∧ job.timer = some i
        ∨ job.type = .cron ∧ job.inst = some i) :
    lookupJob (fireEnd s key true) key = none
    ∧ findHandler (fireEnd s key true).handlers i = none
    ∧ deliverFire (fireEnd s key true) i = ⟨fireEnd s key true, false, false⟩ := by
  have hl : jobsLookup s.jobs key = some job := hlook
  have hup : jobsLookup (updateStatus s.jobs key JobStatus.READY) key
      = some { job with status := JobStatus.READY } := by
    rw [jobsLookup_updateStatus, hl]
    rfl
  have hfe : fireEnd s key true
      = ⟨eraseKey (updateStatus s.jobs key .READY) key,
          removeHandlerId s.handlers i, s.nextId⟩ := by
    rcases hh with ⟨ht, hi⟩ | ⟨ht, hi⟩ <;>
      simp [fireEnd, cancelJob, lookupJob, hup, ht, hi, optRemove]
  refine ⟨?_, ?_, ?_⟩
  · rw [hfe]
    exact jobsLookup_eraseKey_self _ _
  · rw [hfe]
    exact findHandler_removeHandlerId_self _ _
  · rw [hfe]
    simp [deliverFire, findHandler_removeHandlerId_self]

/-- State holding one registered interval job `"k"`, for the C8 witness. -/
def c8state : SchedState :=
  exceptD (scheduleIntervalJob init "k" 7 none)

/-- The registry entry stored for `"k"` in `c8state`. -/
def c8job : IJob :=
  ⟨.interval, none, "k", some 0, none, .READY⟩

/-- C8 witness: stop-signal cancellation observed on a concrete interval
job. -/
theorem c8_stop_signal_cancels_witness :
    lookupJob c8state "k" = some c8job
    ∧ (c8job.type = .interval ∧ c8job.timer = some 0)
    ∧ (lookupJob (fireEnd c8state "k" true) "k" = none
        ∧ findHandler (fireEnd c8state "k" true).handlers 0 = none
        ∧ deliverFire (fireEnd c8state "k" true) 0
            = ⟨fireEnd c8state "k" true, false, false⟩) :=
  ⟨by decide, ⟨rfl, rfl⟩,
    c8_stop_signal_cancels c8state "k" c8job 0 (by decide) (Or.inl ⟨rfl, rfl⟩)⟩

/-! ### Claim C9 -/

/-- C9: `cancelJob` on an absent key is a complete no-op (no error, the
whole state — registry, handles, counter — is returned unchanged).  On a
present key it removes exactly that entry (other keys are untouched),
releases the handle appropriate to the job's kind (the node-schedule
instance for a cron job, the timer for interval/timeout), and releases no
other handle. -/
theorem c9_canceljob_exact :
    (∀ (s : SchedState) (key : String),
      lookupJob s key = none → cancelJob s key = s)
    ∧ (∀ (s : SchedState) (key : String) (job : IJob),
        lookupJob s key = some job →
        lookupJob (cancelJob s key) key = none
        ∧ (∀ k2 : String, k2 ≠ key →
            lookupJob (cancelJob s key) k2 = lookupJob s k2)
        ∧ (∀ i : Nat,
            (if job.type = JobType.cron then job.inst else job.timer) = some i →
            findHandler (cancelJob s key).handlers i = none)
        ∧ (∀ j : Nat,
            (∀ i : Nat,
              (if job.type = JobType.cron then job.inst else job.timer) = some i →
                j ≠ i) →
            findHandler (cancelJob s key).handlers j = findHandler s.handlers j)) := by
  constructor
  · intro s key h
    simp [cancelJob, h]
  · intro s key job hlook
    have hcj : cancelJob s key
        = ⟨eraseKey s.jobs key,
            optRemove s.handlers
              (if job.type = JobType.cron then job.inst else job.timer),
            s.nextId⟩ := by
      cases ht : job.type <;> simp [cancelJob, hlook, ht]
    refine ⟨?_, ?_, ?_, ?_⟩
    · rw [hcj]
      exact jobsLookup_eraseKey_self _ _
    · intro k2 hk2
      rw [hcj]
      exact jobsLookup_eraseKey_ne s.jobs key k2 hk2
    · intro i hi
      rw [hcj]
      simp [hi, optRemove, findHandler_removeHandlerId_self]
    · intro j hj
      rw [hcj]
      show findHandler
          (optRemove s.handlers
            (if job.type = JobType.cron then job.inst else job.timer)) j
        = findHandler s.handlers j
      cases ho : (if job.type = JobType.cron then job.inst else job.timer) with
      | none => simp [optRemove]
      | some i => simp [optRemove, findHandler_removeHandlerId_ne _ _ _ (hj i ho)]

/-- State holding one registered cron job `"c"`, for the C9 witness. -/
def c9state : SchedState :=
  exceptD (scheduleCronJob init "c" (.str "0 0 2 * *") none)

/-- The registry entry stored for `"c"` in `c9state`. -/
def c9job : IJob :=
  ⟨.cron, none, "c", none, some 0, .READY⟩

/-- C9 witness: the no-op on an absent key and the exact removal on a
present cron key, both on concrete states. -/
theorem c9_canceljob_exact_witness :
    (lookupJob init "x" = none ∧ cancelJob init "x" = init)
    ∧ (lookupJob c9state "c" = some c9job
        ∧ lookupJob (cancelJob c9state "c") "c" = none
        ∧ findHandler (cancelJob c9state "c").handlers 0 = none) :=
  ⟨⟨rfl, c9_canceljob_exact.1 init "x" rfl⟩,
    ⟨by decide, (c9_canceljob_exact.2 c9state "c" c9job (by decide)).1,
      (c9_canceljob_exact.2 c9state "c" c9job (by decide)).2.2.1 0 rfl⟩⟩

end NestSchedule
